import Mathlib

/-!
Verification of the TrackBackend feed-normalization and aggregation core.

Shallow embedding of the Python sources under TrackBackend/app:
pure functions become Lean functions, upstream I/O outcomes become
explicit parameters (an attempt either yields a value or raises, modelled
with Except), Python ints become Int/Nat, floats used only for coordinates
become Rat, and Python's stable list.sort is modelled by the stable
List.insertionSort.
-/

namespace Track

/-! ### Data model (app/models.py) -/

/-- NearbyTransitArrival from app/models.py: a single upcoming transit
arrival (bus or train) near the user. -/
structure NearbyTransitArrival where
  route_id : String
  stop_name : String
  direction : String
  minutes_away : Int
  status : String
  mode : String
  stop_lat : Option ℚ := none
  stop_lon : Option ℚ := none
deriving DecidableEq, Repr

/-- DirectionArrivals from app/models.py: arrivals for a single direction
of a route. -/
structure DirectionArrivals where
  direction : String
  arrivals : List NearbyTransitArrival
deriving DecidableEq, Repr

/-- GroupedNearbyTransit from app/models.py: arrivals grouped by route with
directions as sub-groups. -/
structure GroupedNearbyTransit where
  route_id : String
  display_name : String
  mode : String
  color_hex : Option String
  directions : List DirectionArrivals
deriving DecidableEq, Repr

/-- A datetime value as handled by routers/nearby.py `_bus_minutes_away`:
the wall-clock reading in seconds together with an optional timezone
offset (in seconds); tzOffset = none models a naive datetime. -/
structure Timestamp where
  wall : Int
  tzOffset : Option Int
deriving DecidableEq, Repr

/-- Epoch seconds of a Timestamp once normalized to UTC.  A naive value is
reinterpreted as UTC (tzinfo replaced by utc, wall clock unchanged),
exactly what `expected.replace(tzinfo=timezone.utc)` does in
`_bus_minutes_away`. -/
def Timestamp.utcEpoch (t : Timestamp) : Int :=
  t.wall - t.tzOffset.getD 0

/-- BusStop from app/models.py: a normalized bus stop from the OBA API. -/
structure BusStop where
  id : String
  name : String
  lat : ℚ
  lon : ℚ
  direction : Option String := none
deriving DecidableEq, Repr

/-- BusArrival from app/models.py: a normalized real-time bus arrival from
the SIRI API. -/
structure BusArrival where
  route_id : String
  vehicle_id : String
  stop_id : String
  status_text : String
  expected_arrival : Option Timestamp := none
  distance_meters : Option ℚ := none
  bearing : Option ℚ := none
deriving DecidableEq, Repr

/-! ### Minutes-away derivation (services/data_cleaner.py and routers/nearby.py) -/

/-- From services/data_cleaner.py, `_minutes_until(epoch)`:
`diff = epoch - int(time.time()); return max(0, diff // 60)`.
The current time is passed explicitly; Python's `//` on ints is floor
division, i.e. Int.fdiv. -/
def minutes_until (epoch now : Int) : Int :=
  max 0 ((epoch - now).fdiv 60)

/-- From routers/nearby.py, `_bus_minutes_away(expected)`: returns 99 when
the expected arrival is absent, otherwise normalizes a naive timestamp to
UTC and returns `max(0, int(diff // 60))` where diff is the signed number
of seconds until the expected arrival. -/
def bus_minutes_away (expected : Option Timestamp) (now : Int) : Int :=
  match expected with
  | none => 99
  | some t => max 0 ((t.utcEpoch - now).fdiv 60)

/-! ### Station lookup (services/station_lookup.py) and destination
derivation (services/data_cleaner.py) -/

/-- StopInfo from services/station_lookup.py. -/
structure StopInfo where
  stop_id : String
  name : String
  lat : ℚ
  lon : ℚ
deriving DecidableEq, Repr

/-- From services/station_lookup.py, `get_stop_name(stop_id)`: the loaded
stops table is passed explicitly (it is built once from stops.txt);
returns the stop's name when present, otherwise the raw id. -/
def get_stop_name (stops : String → Option StopInfo) (stop_id : String) : String :=
  match stops stop_id with
  | some info => info.name
  | none => stop_id

/-- Destination derivation from services/data_cleaner.py
`get_arrivals_for_line`, lines 52-62: when the trip update has stop-time
updates, look up the name of the last stop id; if that yielded the literal
string "Unknown" and the id is longer than one character ending in 'N' or
'S', retry with the final character stripped; a destination still equal to
"Unknown" becomes none.  The list argument is the sequence of stop ids of
the trip's stop-time updates. -/
def trip_destination (stops : String → Option StopInfo)
    (stop_time_update : List String) : Option String :=
  match stop_time_update.getLast? with
  | none => none
  | some last_stop_id =>
    let destination := get_stop_name stops last_stop_id
    let destination :=
      if destination = "Unknown" ∧ 1 < last_stop_id.length ∧
          (last_stop_id.back = 'N' ∨ last_stop_id.back = 'S') then
        get_stop_name stops (last_stop_id.dropRight 1)
      else destination
    if destination = "Unknown" then none else some destination

/-! ### Trunk-branch selection (services/subway_shapes.py) -/

/-- Python's builtin max over a non-empty iterable with a key function, as
used in `_load_route_shapes`: scan the elements and keep the first one
whose key is strictly greater than the current best's key. -/
def max_by_key (key : String → Nat) (hd : String) (tl : List String) : String :=
  tl.foldl (fun best x => if key best < key x then x else best) hd

/-- From services/subway_shapes.py `_load_route_shapes`, lines 114-119: for
one route/direction the selected geometry is the candidate shape id whose
precomputed stop list (shape_stops.get(sid, [])) is longest.  The
candidate set is given in its iteration order as hd :: tl. -/
def best_shape (shape_stops : String → List String) (hd : String) (tl : List String) : String :=
  max_by_key (fun sid => (shape_stops sid).length) hd tl

/-! ### Nearby aggregation (routers/nearby.py) -/

/-- From routers/nearby.py `_collect_all`, lines 86-107: the two branch
fetches are gathered with return_exceptions=True, so each branch outcome
is either its list or the exception it raised (modelled with Except); a
list outcome is appended to the results, an exception outcome is logged
and skipped. -/
def collect_all (subway_results bus_results : Except Unit (List NearbyTransitArrival)) :
    List NearbyTransitArrival :=
  (match subway_results with
    | Except.ok l => l
    | Except.error _ => []) ++
  (match bus_results with
    | Except.ok l => l
    | Except.error _ => [])

/-- From routers/nearby.py `nearby_transit`, lines 44-59: collect both
branches, sort by minutes_away (Python's stable list.sort, modelled by the
stable insertionSort) and return the first 20 entries. -/
def nearby_transit (subway_results bus_results : Except Unit (List NearbyTransitArrival)) :
    List NearbyTransitArrival :=
  ((collect_all subway_results bus_results).insertionSort
    fun a b => a.minutes_away ≤ b.minutes_away).take 20

/-! ### Grouping (routers/nearby.py) -/

/-- Python str.startswith, computed on the underlying character
sequences (Python strings are sequences of code points). -/
def py_startswith (s pre : String) : Bool :=
  pre.data.isPrefixOf s.data

/-- Python str.upper for the ASCII route ids fed to the color table:
uppercase each character (Char.toUpper uppercases the ASCII range, which
covers every key of the color table). -/
def py_upper (s : String) : String :=
  ⟨s.data.map Char.toUpper⟩

/-- Python string comparison, less-or-equal: lexicographic by code
point.  This is the order list.sort induces on the direction strings. -/
def str_le_b : List Char → List Char → Bool
  | [], _ => true
  | _ :: _, [] => false
  | a :: as, b :: bs =>
    if a.toNat < b.toNat then true
    else if b.toNat < a.toNat then false
    else str_le_b as bs

/-- Less-or-equal on Python strings, as a proposition. -/
def py_str_le (a b : String) : Prop :=
  str_le_b a.data b.data = true

instance : DecidableRel py_str_le :=
  fun a b => inferInstanceAs (Decidable (str_le_b a.data b.data = true))

/-- From routers/nearby.py `_display_name`: strip the "MTA NYCT_" prefix
(9 characters) for display. -/
def display_name (route_id : String) : String :=
  if py_startswith route_id "MTA NYCT_" then route_id.drop 9 else route_id

/-- The _SUBWAY_COLORS table from routers/nearby.py (official MTA line
colors), as the lookup dict.get performs on it. -/
def subway_colors : String → Option String
  | "1" => some "#EE352E"
  | "2" => some "#EE352E"
  | "3" => some "#EE352E"
  | "4" => some "#00933C"
  | "5" => some "#00933C"
  | "6" => some "#00933C"
  | "7" => some "#B933AD"
  | "A" => some "#0039A6"
  | "C" => some "#0039A6"
  | "E" => some "#0039A6"
  | "B" => some "#FF6319"
  | "D" => some "#FF6319"
  | "F" => some "#FF6319"
  | "M" => some "#FF6319"
  | "G" => some "#6CBE45"
  | "J" => some "#996633"
  | "Z" => some "#996633"
  | "L" => some "#A7A9AC"
  | "N" => some "#FCCC0A"
  | "Q" => some "#FCCC0A"
  | "R" => some "#FCCC0A"
  | "W" => some "#FCCC0A"
  | "S" => some "#808183"
  | "SI" => some "#808183"
  | _ => none

/-- One entry of the by_route dict of `_group_arrivals` together with its
route_meta record: Python dicts preserve insertion order, so both levels
are modelled as association lists in insertion order. -/
structure RouteBucket where
  route_id : String
  mode : String
  display_name : String
  dirs : List (String × List NearbyTransitArrival)
deriving DecidableEq, Repr

/-- Append an arrival to its direction bucket, creating the bucket at the
end on first sight of the direction (defaultdict(list) insertion order). -/
def add_to_dirs (dirs : List (String × List NearbyTransitArrival))
    (direction : String) (a : NearbyTransitArrival) :
    List (String × List NearbyTransitArrival) :=
  match dirs with
  | [] => [(direction, [a])]
  | (d, as) :: rest =>
    if d = direction then (d, as ++ [a]) :: rest
    else (d, as) :: add_to_dirs rest direction a

/-- Insert one arrival into the by_route structure of `_group_arrivals`,
lines 134-137: the arrival is appended to
by_route[a.route_id][a.direction], and route_meta records (mode,
display_name) the first time a route id is seen. -/
def add_arrival (m : List RouteBucket) (a : NearbyTransitArrival) : List RouteBucket :=
  match m with
  | [] => [⟨a.route_id, a.mode, display_name a.route_id, [(a.direction, [a])]⟩]
  | b :: rest =>
    if b.route_id = a.route_id then
      { b with dirs := add_to_dirs b.dirs a.direction a } :: rest
    else b :: add_arrival rest a

/-- From routers/nearby.py `_soonest_minutes`, lines 168-175: the smallest
minutes_away across all directions of a group, or 999 for a group with no
arrivals. -/
def soonest_minutes (group : GroupedNearbyTransit) : Int :=
  let mins := (group.directions.flatMap fun d => d.arrivals).map fun a => a.minutes_away
  match mins with
  | [] => 999
  | m :: rest => rest.foldl min m

/-- Body of the per-route loop of `_group_arrivals`, lines 140-160: sort
each direction's arrivals by minutes_away, sort directions
alphabetically, and attach the subway color keyed by the uppercased
display name (bus groups get none).  All Python sorts involved are stable
and modelled by insertionSort. -/
def route_bucket_to_group (b : RouteBucket) : GroupedNearbyTransit :=
  { route_id := b.route_id
    display_name := b.display_name
    mode := b.mode
    color_hex := if b.mode = "subway" then subway_colors (py_upper b.display_name) else none
    directions :=
      (b.dirs.map fun p =>
        DirectionArrivals.mk p.1
          (p.2.insertionSort fun a a' => a.minutes_away ≤ a'.minutes_away)).insertionSort
        fun d d' => py_str_le d.direction d'.direction }

/-- Tail of `_group_arrivals`: build one group per route bucket and sort
the groups by soonest arrival. -/
def group_arrivals (flat : List NearbyTransitArrival) : List GroupedNearbyTransit :=
  ((flat.foldl add_arrival []).map route_bucket_to_group).insertionSort
    fun g g' => soonest_minutes g ≤ soonest_minutes g'

/-! ### Bus client retry and the nearby endpoints (services/bus_client.py,
routers/nearby.py) -/

/-- Retry loop of get_nearby_stops from services/bus_client.py, lines
163-192: attempts are indexed 0, 1, ...; the loop body either returns the
parsed stop list of a successful attempt, or remembers the error of the
failed attempt and retries; once all range(max_retries + 1) attempts are
exhausted the last error is raised when one was recorded, and an empty
list is returned otherwise.  The fuel argument is the number of attempts
still allowed. -/
def stops_retry_loop {ε : Type} (attempts : Nat → Except ε (List BusStop)) :
    Nat → Nat → Option ε → Except ε (List BusStop)
  | 0, _, last_error =>
    match last_error with
    | some e => Except.error e
    | none => Except.ok []
  | fuel + 1, attempt, _ =>
    match attempts attempt with
    | Except.ok v => Except.ok v
    | Except.error e => stops_retry_loop attempts fuel (attempt + 1) (some e)

/-- Upstream environment of the bus client: the outcome of the
stops-for-location discovery query as a function of lat, lon, the
latSpan/lonSpan degree spans and the attempt index; the outcome of the
stop-monitoring query per stop id; and the configured settings consulted
by bus_client.py. -/
structure BusApiEnv (ε : Type) where
  stops_query : ℚ → ℚ → ℚ → ℚ → Nat → Except ε (List BusStop)
  arrivals_for_stop : String → Except ε (List BusArrival)
  search_radius_meters : Nat
  http_max_retries : Nat

/-- From services/bus_client.py `get_nearby_stops`, lines 123-192: the
effective radius is the radius_m argument when given, else the configured
search_radius_meters; it is converted to degree spans latSpan =
max(0.005, r/111000) and lonSpan = max(0.005, r/85000), and the discovery
query runs under the bounded retry loop. -/
def get_nearby_stops {ε : Type} (env : BusApiEnv ε) (lat lon : ℚ) (radius_m : Option Nat) :
    Except ε (List BusStop) :=
  let effective_radius : ℚ := (radius_m.getD env.search_radius_meters : Nat)
  let lat_span : ℚ := max (5 / 1000) (effective_radius / 111000)
  let lon_span : ℚ := max (5 / 1000) (effective_radius / 85000)
  stops_retry_loop (env.stops_query lat lon lat_span lon_span)
    (env.http_max_retries + 1) 0 none

/-- From routers/nearby.py `_fetch_nearby_buses`, lines 233-277: stops are
fetched with get_nearby_stops(lat, lon) — no radius argument — an
exception there yields an empty result; arrivals are gathered for the
first 3 stops (a per-stop exception is logged and skipped) and converted
with `_bus_minutes_away`. -/
def fetch_nearby_buses {ε : Type} (env : BusApiEnv ε) (lat lon : ℚ) (now : Int) :
    List NearbyTransitArrival :=
  match get_nearby_stops env lat lon none with
  | Except.error _ => []
  | Except.ok stops =>
    (stops.take 3).flatMap fun stop =>
      match env.arrivals_for_stop stop.id with
      | Except.error _ => []
      | Except.ok arrivals =>
        arrivals.map fun arrival =>
          { route_id := arrival.route_id
            stop_name := stop.name
            direction := arrival.status_text
            minutes_away := bus_minutes_away arrival.expected_arrival now
            status := arrival.status_text
            mode := "bus"
            stop_lat := some stop.lat
            stop_lon := some stop.lon }

/-- The full /nearby endpoint, routers/nearby.py lines 44-59: the radius
query parameter is accepted but never consulted by the body. -/
def nearby_endpoint {ε : Type} (env : BusApiEnv ε)
    (subway_results : Except Unit (List NearbyTransitArrival))
    (lat lon : ℚ) (radius : Int) (now : Int) : List NearbyTransitArrival :=
  nearby_transit subway_results (Except.ok (fetch_nearby_buses env lat lon now))

/-- The full /nearby/grouped endpoint, routers/nearby.py lines 62-78: same
two-branch collection, then grouping; the radius query parameter is
accepted but never consulted by the body. -/
def nearby_grouped_endpoint {ε : Type} (env : BusApiEnv ε)
    (subway_results : Except Unit (List NearbyTransitArrival))
    (lat lon : ℚ) (radius : Int) (now : Int) : List GroupedNearbyTransit :=
  group_arrivals (collect_all subway_results
    (Except.ok (fetch_nearby_buses env lat lon now)))

/-! ### Ordered stop lists per shape (services/subway_shapes.py) -/

/-- RouteStopEntry from services/subway_shapes.py. -/
structure RouteStopEntry where
  stop_id : String
  name : String
  lat : ℚ
  lon : ℚ
  sequence : Nat
deriving DecidableEq, Repr

/-- Loop body of `_get_stops_for_shape`, lines 145-164: iterate the
enumerated stop ids, skip ids missing from the stops table, skip stops
whose display name was already seen, and otherwise emit an entry and
record the name as seen.  The seen set is modelled as the list of names
recorded so far. -/
def get_stops_for_shape_go (stops : String → Option StopInfo) :
    List (Nat × String) → List String → List RouteStopEntry
  | [], _ => []
  | (seq, stop_id) :: rest, seen_names =>
    match stops stop_id with
    | none => get_stops_for_shape_go stops rest seen_names
    | some info =>
      if info.name ∈ seen_names then get_stops_for_shape_go stops rest seen_names
      else
        { stop_id := stop_id, name := info.name, lat := info.lat, lon := info.lon,
          sequence := seq } :: get_stops_for_shape_go stops rest (info.name :: seen_names)

/-- From services/subway_shapes.py `_get_stops_for_shape`, lines 138-164,
applied to the precomputed stop id list of a shape (shape_stops.get with
an empty-list default makes the early return for a missing shape id
coincide with running the loop on an empty list). -/
def get_stops_for_shape (stops : String → Option StopInfo) (stop_ids : List String) :
    List RouteStopEntry :=
  get_stops_for_shape_go stops stop_ids.enum []

/-! ### Polyline encoding (routers/subway.py) -/

/-- Python 3's builtin round on a rational value: round half to even. -/
def python_round (q : ℚ) : Int :=
  if q - ⌊q⌋ < 1 / 2 then ⌊q⌋
  else if 1 / 2 < q - ⌊q⌋ then ⌊q⌋ + 1
  else if ⌊q⌋ % 2 = 0 then ⌊q⌋ else ⌊q⌋ + 1

/-- Zig-zag step of `_encode_value`: v = ~(value << 1) if value < 0 else
(value << 1).  On Python ints, value << 1 is 2 * value and ~x is -x - 1,
so the result is a nonnegative integer. -/
def zigzag (value : Int) : Nat :=
  (if value < 0 then -(2 * value) - 1 else 2 * value).toNat

/-- Chunk loop of `_encode_value`: while v >= 0x20 emit
((v & 0x1F) | 0x20) + 63 and set v >>= 5; finally emit v + 63.  On
naturals v &&& 0x1F = v % 32, v >>> 5 = v / 32, and since v % 32 < 32,
(v % 32) ||| 0x20 = v % 32 + 32. -/
def encode_value_chunks (v : Nat) : List Nat :=
  if v < 32 then [v + 63]
  else (v % 32 + 32 + 63) :: encode_value_chunks (v / 32)
decreasing_by exact Nat.div_lt_self (by omega) (by omega)

/-- `_encode_value` from routers/subway.py, lines 176-182: zig-zag the
signed value, chunk it, offset every chunk by 63 and emit characters. -/
def encode_value (value : Int) : List Char :=
  (encode_value_chunks (zigzag value)).map Char.ofNat

/-- Loop of `_encode_polyline`, lines 159-173: delta-encode each axis
against the previous point's scaled-and-rounded value. -/
def encode_polyline_go : List (ℚ × ℚ) → Int → Int → List Char
  | [], _, _ => []
  | (lat, lon) :: rest, prev_lat, prev_lon =>
    let lat_e5 := python_round (lat * 100000)
    let lon_e5 := python_round (lon * 100000)
    encode_value (lat_e5 - prev_lat) ++ encode_value (lon_e5 - prev_lon) ++
      encode_polyline_go rest lat_e5 lon_e5

/-- `_encode_polyline` from routers/subway.py: encode a coordinate list
into a Google-encoded polyline string, starting from previous value 0 on
both axes. -/
def encode_polyline (coords : List (ℚ × ℚ)) : String :=
  ⟨encode_polyline_go coords 0 0⟩

/-- Modelled from the spec: chunk-stream parsing of the publicly
documented polyline algorithm, for the round-trip comparison.  Each
character is offset down by 63; chunks with the continuation bit 0x20
contribute 5 low-order bits and continue, the first chunk below 0x20 ends
the value. -/
def decode_chunks : List Char → Option (Nat × List Char)
  | [] => none
  | c :: rest =>
    if c.toNat - 63 < 32 then some (c.toNat - 63, rest)
    else
      match decode_chunks rest with
      | some (v, r) => some ((c.toNat - 63 - 32) + 32 * v, r)
      | none => none

/-- Modelled from the spec: the inverse zig-zag of the documented
algorithm; a value with low bit 1 decodes to ~(r >> 1) = -(r >> 1) - 1,
otherwise to r >> 1. -/
def unzigzag (u : Nat) : Int :=
  if u % 2 = 1 then -((u / 2 : Nat) : Int) - 1 else ((u / 2 : Nat) : Int)

/-- Modelled from the spec: decoding one signed value of the documented
polyline algorithm from the character stream. -/
def decode_value (cs : List Char) : Option (Int × List Char) :=
  match decode_chunks cs with
  | some (u, rest) => some (unzigzag u, rest)
  | none => none

/-- Modelled from the spec: decoding loop of the documented polyline
algorithm, accumulating absolute scaled coordinates from the deltas.  The
fuel argument bounds the number of points and is instantiated with the
character count, which suffices since every point consumes at least two
characters. -/
def decode_polyline_go : Nat → List Char → Int → Int → Option (List (Int × Int))
  | _, [], _, _ => some []
  | 0, _ :: _, _, _ => none
  | fuel + 1, c :: cs, plat, plon =>
    match decode_value (c :: cs) with
    | none => none
    | some (dlat, r1) =>
      match decode_value r1 with
      | none => none
      | some (dlon, r2) =>
        match decode_polyline_go fuel r2 (plat + dlat) (plon + dlon) with
        | some tail => some ((plat + dlat, plon + dlon) :: tail)
        | none => none

/-- Modelled from the spec: decoding an encoded polyline string back to
the list of scaled integer coordinates. -/
def decode_polyline (s : String) : Option (List (Int × Int)) :=
  decode_polyline_go s.data.length s.data 0 0

/-- Quantization performed by the encoder on one coordinate pair: scale by
1e5 and round. -/
def quantize (p : ℚ × ℚ) : Int × Int :=
  (python_round (p.1 * 100000), python_round (p.2 * 100000))

/-! ### Order facts for the sort relations used above -/

theorem str_le_b_total : ∀ as bs : List Char, str_le_b as bs = true ∨ str_le_b bs as = true := by
  intro as
  induction as with
  | nil => intro bs; left; rfl
  | cons a as ih =>
    intro bs
    cases bs with
    | nil => right; rfl
    | cons b bs =>
      by_cases h1 : a.toNat < b.toNat
      · left; simp [str_le_b, h1]
      · by_cases h2 : b.toNat < a.toNat
        · right; simp [str_le_b, h1, h2]
        · rcases ih bs with h | h
          · left; simp [str_le_b, h1, h2, h]
          · right; simp [str_le_b, h1, h2, h]

theorem str_le_b_trans : ∀ as bs cs : List Char,
    str_le_b as bs = true → str_le_b bs cs = true → str_le_b as cs = true := by
  intro as
  induction as with
  | nil => intro bs cs _ _; rfl
  | cons a as ih =>
    intro bs cs hab hbc
    cases bs with
    | nil => exact absurd hab (by simp [str_le_b])
    | cons b bs =>
      cases cs with
      | nil => exact absurd hbc (by simp [str_le_b])
      | cons c cs =>
        simp only [str_le_b] at hab hbc ⊢
        split_ifs at hab hbc ⊢ <;>
          first
            | rfl
            | exact Bool.noConfusion hab
            | exact Bool.noConfusion hbc
            | (exfalso; omega)
            | exact ih bs cs hab hbc

instance : IsTotal NearbyTransitArrival fun a b => a.minutes_away ≤ b.minutes_away :=
  ⟨fun _ _ => le_total _ _⟩

instance : IsTrans NearbyTransitArrival fun a b => a.minutes_away ≤ b.minutes_away :=
  ⟨fun _ _ _ => le_trans⟩

instance : IsTotal DirectionArrivals fun d d' => py_str_le d.direction d'.direction :=
  ⟨fun d d' => str_le_b_total d.direction.data d'.direction.data⟩

instance : IsTrans DirectionArrivals fun d d' => py_str_le d.direction d'.direction :=
  ⟨fun x y z => str_le_b_trans x.direction.data y.direction.data z.direction.data⟩

instance : IsTotal GroupedNearbyTransit fun g g' => soonest_minutes g ≤ soonest_minutes g' :=
  ⟨fun _ _ => le_total _ _⟩

instance : IsTrans GroupedNearbyTransit fun g g' => soonest_minutes g ≤ soonest_minutes g' :=
  ⟨fun _ _ _ => le_trans⟩

/-! ### Concrete example data -/

/-- A concrete bus arrival with the given countdown, for example inputs. -/
def mk_bus_arrival (i : Nat) : NearbyTransitArrival :=
  { route_id := "B63", stop_name := "5 Av / Union St", direction := "Approaching",
    minutes_away := (i : Int), status := "Approaching", mode := "bus" }

/-- A concrete subway arrival with the given countdown, for example inputs. -/
def mk_subway_arrival (i : Nat) : NearbyTransitArrival :=
  { route_id := "A", stop_name := "A24N", direction := "N",
    minutes_away := (i : Int), status := "On Time", mode := "subway" }

/-- Twenty-one bus arrivals, one more than the result cap. -/
def bus_list_21 : List NearbyTransitArrival := (List.range 21).map mk_bus_arrival

/-- Two bus arrivals, in unsorted order. -/
def bus_pair : List NearbyTransitArrival := [mk_bus_arrival 7, mk_bus_arrival 2]

/-- Fifteen subway arrivals. -/
def subway_15 : List NearbyTransitArrival := (List.range 15).map mk_subway_arrival

/-- Fifteen bus arrivals. -/
def bus_15 : List NearbyTransitArrival := (List.range 15).map mk_bus_arrival

/-- Route A northbound, 3 minutes away. -/
def arrival_a_n : NearbyTransitArrival :=
  { route_id := "A", stop_name := "A24N", direction := "N",
    minutes_away := 3, status := "On Time", mode := "subway" }

/-- Route A southbound, 5 minutes away. -/
def arrival_a_s : NearbyTransitArrival :=
  { route_id := "A", stop_name := "A24S", direction := "S",
    minutes_away := 5, status := "On Time", mode := "subway" }

/-- Route L northbound, 2 minutes away. -/
def arrival_l_n : NearbyTransitArrival :=
  { route_id := "L", stop_name := "L06N", direction := "N",
    minutes_away := 2, status := "On Time", mode := "subway" }

/-- The group produced for a single L-train arrival. -/
def group_l : GroupedNearbyTransit :=
  { route_id := "L", display_name := "L", mode := "subway",
    color_hex := some "#A7A9AC",
    directions := [⟨"N", [arrival_l_n]⟩] }

/-- The single direction bucket of group_l. -/
def dir_l : DirectionArrivals := ⟨"N", [arrival_l_n]⟩

/-- A precomputed shape_stops table with a 5-stop and a 12-stop
candidate. -/
def demo_shape_stops : String → List String
  | "A..N04R" => List.replicate 12 "stop"
  | "A..N55R" => List.replicate 5 "stop"
  | _ => []

/-- A concrete bus stop for the retry examples. -/
def demo_stop : BusStop :=
  { id := "MTA_305423", name := "5 AV/UNION ST", lat := 40, lon := -73 }

/-- An upstream environment whose stops query fails on attempts 0 and 1
(error value = attempt index) and succeeds on attempt 2, under a retry
budget of 2. -/
def retry_env_ok : BusApiEnv Nat :=
  { stops_query := fun _ _ _ _ attempt =>
      if attempt < 2 then Except.error attempt else Except.ok [demo_stop]
    arrivals_for_stop := fun _ => Except.ok []
    search_radius_meters := 500
    http_max_retries := 2 }

/-- An upstream environment whose stops query fails on every attempt
(error value = attempt index), under a retry budget of 2. -/
def retry_env_fail : BusApiEnv Nat :=
  { stops_query := fun _ _ _ _ attempt => Except.error attempt
    arrivals_for_stop := fun _ => Except.ok []
    search_radius_meters := 500
    http_max_retries := 2 }

/-! ### Proofs for minutes-away (claim C2) -/

theorem fdiv_sixty_eq_floor (d : Int) : d.fdiv 60 = ⌊(d : ℚ) / 60⌋ := by
  rw [Int.fdiv_eq_ediv _ (by norm_num)]
  rw [show ((60 : ℚ)) = ((60 : ℕ) : ℚ) by norm_num]
  rw [Rat.floor_intCast_div_natCast d 60]
  rfl

/-- C2: for every arrival epoch t and current time n the derived
minutes-away equals max(0, floor((t - n)/60)) and is never negative; this
holds for the subway derivation (minutes_until) and for the bus derivation
when the expected timestamp is present, a naive timestamp being treated as
UTC (its wall-clock reading used directly as the UTC epoch). -/
theorem minutes_away_spec (t n : Int) (ts : Timestamp) :
    minutes_until t n = max 0 ⌊((t : ℚ) - n) / 60⌋
    ∧ 0 ≤ minutes_until t n
    ∧ bus_minutes_away (some ⟨t, none⟩) n = max 0 ⌊((t : ℚ) - n) / 60⌋
    ∧ 0 ≤ bus_minutes_away (some ts) n := by
  refine ⟨?_, ?_, ?_, ?_⟩
  · rw [minutes_until, fdiv_sixty_eq_floor]
    norm_num
  · exact le_max_left _ _
  · rw [bus_minutes_away]
    show max 0 ((Timestamp.utcEpoch ⟨t, none⟩ - n).fdiv 60) = _
    rw [show Timestamp.utcEpoch ⟨t, none⟩ = t by
      simp [Timestamp.utcEpoch, Option.getD], fdiv_sixty_eq_floor]
    norm_num
  · exact le_max_left _ _

/-! ### Proofs for destination derivation (claim C3) -/

/-- C3 is contradicted by the code: get_stop_name falls back to the RAW
stop id for an unknown id, so the "Unknown" test in get_arrivals_for_line
never fires on a lookup miss and the derived destination is the raw stop
id, not absent.  Concretely, with an empty stops table and a trip whose
last stop id is "X99N", the destination is some "X99N". -/
theorem trip_destination_returns_raw_id :
    trip_destination (fun _ => none) ["X99N"] = some "X99N" := by
  decide

/-! ### Proofs for trunk-branch selection (claim C5) -/

theorem max_by_key_hold (key : String → Nat) (c : String) :
    ∀ l : List String, (∀ x ∈ l, x ≠ c → key x < key c) →
      l.foldl (fun best x => if key best < key x then x else best) c = c := by
  intro l
  induction l with
  | nil => intro _; rfl
  | cons y ys ih =>
    intro hall
    by_cases hyc : y = c
    · subst hyc
      simp only [List.foldl_cons, lt_irrefl, if_false]
      exact ih fun x hx => hall x (List.mem_cons_of_mem _ hx)
    · have : key y < key c := hall y (List.mem_cons_self _ _) hyc
      simp only [List.foldl_cons, if_neg (not_lt.mpr (le_of_lt this))]
      exact ih fun x hx => hall x (List.mem_cons_of_mem _ hx)

theorem max_by_key_reach (key : String → Nat) (c : String) :
    ∀ l : List String, ∀ acc : String, c ∈ l → key acc < key c →
      (∀ x ∈ l, x ≠ c → key x < key c) →
      l.foldl (fun best x => if key best < key x then x else best) acc = c := by
  intro l
  induction l with
  | nil => intro acc h; exact absurd h (List.not_mem_nil c)
  | cons y ys ih =>
    intro acc hmem hacc hall
    by_cases hyc : y = c
    · subst hyc
      simp only [List.foldl_cons, if_pos hacc]
      exact max_by_key_hold key y ys fun x hx => hall x (List.mem_cons_of_mem _ hx)
    · have hylt : key y < key c := hall y (List.mem_cons_self _ _) hyc
      have hmem' : c ∈ ys := by
        rcases List.mem_cons.mp hmem with h | h
        · exact absurd h.symm hyc
        · exact h
      simp only [List.foldl_cons]
      by_cases hcase : key acc < key y
      · rw [if_pos hcase]
        exact ih y hmem' hylt fun x hx => hall x (List.mem_cons_of_mem _ hx)
      · rw [if_neg hcase]
        exact ih acc hmem' hacc fun x hx => hall x (List.mem_cons_of_mem _ hx)

/-- C5: when one candidate geometry's precomputed stop list is strictly
longer than every other candidate's, the selection of _load_route_shapes
picks that candidate, wherever it occurs in the candidate set's iteration
order.  In particular a 12-stop candidate wins over a 5-stop one. -/
theorem best_shape_picks_longest (shape_stops : String → List String)
    (hd : String) (tl : List String) (c : String) (hc : c ∈ hd :: tl)
    (hmax : ∀ x ∈ hd :: tl, x ≠ c →
      (shape_stops x).length < (shape_stops c).length) :
    best_shape shape_stops hd tl = c := by
  rw [best_shape, max_by_key]
  set key : String → Nat := fun sid => (shape_stops sid).length with hkey
  by_cases hhd : hd = c
  · subst hhd
    exact max_by_key_hold key hd tl fun x hx hxc =>
      hmax x (List.mem_cons_of_mem _ hx) hxc
  · have htl : c ∈ tl := by
      rcases List.mem_cons.mp hc with h | h
      · exact absurd h.symm hhd
      · exact h
    exact max_by_key_reach key c tl hd htl
      (hmax hd (List.mem_cons_self _ _) hhd)
      fun x hx hxc => hmax x (List.mem_cons_of_mem _ hx) hxc

/-! ### Proofs for the nearby aggregation (claims C1 and C6) -/

/-- C1 as stated is false at a bus branch of 21 arrivals: with the subway
branch raising and the bus branch returning 21 items, nearby returns 20
items, not exactly those 21; in particular the result is not a
permutation of the bus branch's list. -/
theorem nearby_not_exactly_n :
    bus_list_21.length = 21
    ∧ (nearby_transit (Except.error ()) (Except.ok bus_list_21)).length = 20
    ∧ ¬ (nearby_transit (Except.error ()) (Except.ok bus_list_21)).Perm bus_list_21 := by
  have h21 : bus_list_21.length = 21 := by decide
  have h20 : (nearby_transit (Except.error ()) (Except.ok bus_list_21)).length = 20 := by
    rw [nearby_transit, List.length_take, List.length_insertionSort]
    rw [show collect_all (Except.error ()) (Except.ok bus_list_21) = bus_list_21 from rfl, h21]
    decide
  refine ⟨h21, h20, fun h => ?_⟩
  have := h.length_eq
  omega

/-- C1 amended: if the subway branch raises and the bus branch returns N
arrivals with N at most the cap of 20, nearby returns exactly those N
arrivals sorted ascending by minutes-away (with more than 20 the 20
soonest are returned); if both branches raise, nearby returns the empty
list without propagating any error. -/
theorem nearby_fault_tolerance (l : List NearbyTransitArrival) (h : l.length ≤ 20) :
    (nearby_transit (Except.error ()) (Except.ok l)).Perm l
    ∧ List.Sorted (fun a b : NearbyTransitArrival => a.minutes_away ≤ b.minutes_away)
        (nearby_transit (Except.error ()) (Except.ok l))
    ∧ nearby_transit (Except.error ()) (Except.error ()) = [] := by
  have hca : collect_all (Except.error ()) (Except.ok l) = l := rfl
  have htake : nearby_transit (Except.error ()) (Except.ok l)
      = l.insertionSort fun a b => a.minutes_away ≤ b.minutes_away := by
    rw [nearby_transit, hca]
    exact List.take_of_length_le (by rw [List.length_insertionSort]; exact h)
  refine ⟨?_, ?_, rfl⟩
  · rw [htake]; exact List.perm_insertionSort _ l
  · rw [htake]; exact List.sorted_insertionSort _ l

theorem nearby_fault_tolerance_witness :
    bus_pair.length ≤ 20
    ∧ ((nearby_transit (Except.error ()) (Except.ok bus_pair)).Perm bus_pair
      ∧ List.Sorted (fun a b : NearbyTransitArrival => a.minutes_away ≤ b.minutes_away)
          (nearby_transit (Except.error ()) (Except.ok bus_pair))
      ∧ nearby_transit (Except.error ()) (Except.error ()) = []) :=
  ⟨by decide, nearby_fault_tolerance bus_pair (by decide)⟩

/-- C6: the flat nearby result is sorted ascending by minutes-away and
has length min(20, collected), hence at most 20 entries; with 15 subway
plus 15 bus candidate arrivals exactly 20 entries are returned. -/
theorem nearby_capped_sorted (s b : Except Unit (List NearbyTransitArrival))
    (ls lb : List NearbyTransitArrival) (hs : ls.length = 15) (hb : lb.length = 15) :
    List.Sorted (fun a b : NearbyTransitArrival => a.minutes_away ≤ b.minutes_away)
      (nearby_transit s b)
    ∧ (nearby_transit s b).length = min 20 (collect_all s b).length
    ∧ (nearby_transit (Except.ok ls) (Except.ok lb)).length = 20 := by
  refine ⟨?_, ?_, ?_⟩
  · exact List.Pairwise.sublist (List.take_sublist _ _) (List.sorted_insertionSort _ _)
  · rw [nearby_transit, List.length_take, List.length_insertionSort]
  · rw [nearby_transit, List.length_take, List.length_insertionSort]
    rw [show collect_all (Except.ok ls) (Except.ok lb) = ls ++ lb from rfl,
      List.length_append, hs, hb]
    decide

theorem nearby_capped_sorted_witness :
    subway_15.length = 15 ∧ bus_15.length = 15
    ∧ (List.Sorted (fun a b : NearbyTransitArrival => a.minutes_away ≤ b.minutes_away)
        (nearby_transit (Except.ok subway_15) (Except.ok bus_15))
      ∧ (nearby_transit (Except.ok subway_15) (Except.ok bus_15)).length
          = min 20 (collect_all (Except.ok subway_15) (Except.ok bus_15)).length
      ∧ (nearby_transit (Except.ok subway_15) (Except.ok bus_15)).length = 20) :=
  ⟨by decide, by decide,
    nearby_capped_sorted (Except.ok subway_15) (Except.ok bus_15) subway_15 bus_15
      (by decide) (by decide)⟩

/-! ### Proofs for the per-shape stop list (claim C9) -/

theorem get_stops_for_shape_go_nodup (stops : String → Option StopInfo) :
    ∀ (l : List (Nat × String)) (seen : List String),
      ((get_stops_for_shape_go stops l seen).map fun e => e.name).Nodup
      ∧ ∀ n ∈ (get_stops_for_shape_go stops l seen).map fun e => e.name, n ∉ seen := by
  intro l
  induction l with
  | nil =>
    intro seen
    exact ⟨List.nodup_nil, by simp [get_stops_for_shape_go]⟩
  | cons p rest ih =>
    intro seen
    obtain ⟨seq, stop_id⟩ := p
    cases hstop : stops stop_id with
    | none =>
      simpa [get_stops_for_shape_go, hstop] using ih seen
    | some info =>
      by_cases hseen : info.name ∈ seen
      · simpa [get_stops_for_shape_go, hstop, hseen] using ih seen
      · have hrec := ih (info.name :: seen)
        refine ⟨?_, ?_⟩
        · simp only [get_stops_for_shape_go, hstop, if_neg hseen, List.map_cons]
          refine List.Nodup.cons ?_ hrec.1
          intro hmem
          exact hrec.2 info.name hmem (List.mem_cons_self _ _)
        · intro n hn
          simp only [get_stops_for_shape_go, hstop, if_neg hseen, List.map_cons,
            List.mem_cons] at hn
          rcases hn with hn | hn
          · exact hn ▸ hseen
          · intro hcontra
            exact hrec.2 n hn (List.mem_cons_of_mem _ hcontra)

/-- C9: for every stops table and every precomputed stop id list, the
ordered stop list produced for a shape contains no two entries sharing a
display name — each station name appears at most once. -/
theorem stops_for_shape_names_nodup (stops : String → Option StopInfo)
    (stop_ids : List String) :
    ((get_stops_for_shape stops stop_ids).map fun e => e.name).Nodup :=
  (get_stops_for_shape_go_nodup stops stop_ids.enum []).1

/-! ### Proofs for radius independence (claim C10) -/

/-- C10: the radius argument of the nearby and grouped endpoints has no
effect on the result: with identical upstream responses, any two radius
values produce the same output, because the bus stops search is invoked
with no radius argument (falling back to the configured default) and the
subway branch takes no location input at all. -/
theorem radius_has_no_effect {ε : Type} (env : BusApiEnv ε)
    (subway_results : Except Unit (List NearbyTransitArrival))
    (lat lon : ℚ) (now : Int) (r1 r2 : Int) :
    nearby_endpoint env subway_results lat lon r1 now
      = nearby_endpoint env subway_results lat lon r2 now
    ∧ nearby_grouped_endpoint env subway_results lat lon r1 now
      = nearby_grouped_endpoint env subway_results lat lon r2 now :=
  ⟨rfl, rfl⟩

/-! ### Proofs for the discovery retry (claim C8) -/

theorem stops_retry_first_success {ε : Type} (attempts : Nat → Except ε (List BusStop)) :
    ∀ (fuel k start : Nat) (last : Option ε) (v : List BusStop), k < fuel →
      attempts (start + k) = Except.ok v →
      (∀ j < k, ∃ e, attempts (start + j) = Except.error e) →
      stops_retry_loop attempts fuel start last = Except.ok v := by
  intro fuel
  induction fuel with
  | zero =>
    intro k start last v hk
    exact absurd hk (Nat.not_lt_zero k)
  | succ f ih =>
    intro k start last v hk hok hfail
    cases k with
    | zero =>
      rw [Nat.add_zero] at hok
      simp only [stops_retry_loop, hok]
    | succ k' =>
      obtain ⟨e, he⟩ := hfail 0 (Nat.succ_pos k')
      rw [Nat.add_zero] at he
      simp only [stops_retry_loop, he]
      exact ih k' (start + 1) (some e) v (by omega)
        (by rw [show start + 1 + k' = start + (k' + 1) by omega]; exact hok)
        (fun j hj => by
          rw [show start + 1 + j = start + (j + 1) by omega]
          exact hfail (j + 1) (by omega))

theorem stops_retry_all_fail {ε : Type} (attempts : Nat → Except ε (List BusStop)) :
    ∀ (fuel start : Nat) (last : Option ε) (es : Nat → ε), 0 < fuel →
      (∀ j < fuel, attempts (start + j) = Except.error (es j)) →
      stops_retry_loop attempts fuel start last = Except.error (es (fuel - 1)) := by
  intro fuel
  induction fuel with
  | zero =>
    intro start last es h
    exact absurd h (lt_irrefl 0)
  | succ f ih =>
    intro start last es _ hfail
    have h0 := hfail 0 (Nat.succ_pos f)
    rw [Nat.add_zero] at h0
    cases f with
    | zero => simp only [stops_retry_loop, h0]
    | succ f' =>
      simp only [stops_retry_loop, h0]
      have := ih (start + 1) (some (es 0)) (fun j => es (j + 1)) (Nat.succ_pos f')
        (fun j hj => by
          rw [show start + 1 + j = start + (j + 1) by omega]
          exact hfail (j + 1) (by omega))
      simpa using this

/-- C8: the nearby-stops discovery query is retried up to the configured
http_max_retries with attempts indexed from 0: a run whose first failing
attempts are followed by a success within the budget returns the
successful stop list, and a run that fails on every attempt raises the
error of the last attempt.  In particular, under a budget of 2, failing
twice then succeeding returns the success. -/
theorem nearby_stops_retry_spec {ε : Type} (env : BusApiEnv ε) (lat lon : ℚ)
    (radius_m : Option Nat) :
    let r : ℚ := (radius_m.getD env.search_radius_meters : Nat)
    let attempts := env.stops_query lat lon (max (5 / 1000) (r / 111000))
      (max (5 / 1000) (r / 85000))
    (∀ (k : Nat) (v : List BusStop), k ≤ env.http_max_retries →
        (∀ j < k, ∃ e, attempts j = Except.error e) →
        attempts k = Except.ok v →
        get_nearby_stops env lat lon radius_m = Except.ok v)
    ∧ (∀ es : Nat → ε,
        (∀ j ≤ env.http_max_retries, attempts j = Except.error (es j)) →
        get_nearby_stops env lat lon radius_m
          = Except.error (es env.http_max_retries)) := by
  intro r attempts
  constructor
  · intro k v hk hfail hok
    show stops_retry_loop attempts (env.http_max_retries + 1) 0 none = Except.ok v
    exact stops_retry_first_success attempts (env.http_max_retries + 1) k 0 none v
      (by omega) (by simpa using hok) (fun j hj => by simpa using hfail j hj)
  · intro es hfail
    show stops_retry_loop attempts (env.http_max_retries + 1) 0 none
      = Except.error (es env.http_max_retries)
    have := stops_retry_all_fail attempts (env.http_max_retries + 1) 0 none es
      (Nat.succ_pos _) (fun j hj => by simpa using hfail j (by omega))
    simpa using this

theorem nearby_stops_retry_spec_witness :
    get_nearby_stops retry_env_ok 0 0 none = Except.ok [demo_stop]
    ∧ get_nearby_stops retry_env_fail 0 0 none = Except.error 2 :=
  ⟨(nearby_stops_retry_spec retry_env_ok 0 0 none).1 2 [demo_stop] (by decide)
      (fun j hj => ⟨j, by simp [retry_env_ok, hj]⟩)
      (by simp [retry_env_ok]),
    (nearby_stops_retry_spec retry_env_fail 0 0 none).2 (fun j => j)
      (fun j _ => by simp [retry_env_fail])⟩

theorem best_shape_picks_longest_witness :
    (demo_shape_stops "A..N55R").length = 5
    ∧ (demo_shape_stops "A..N04R").length = 12
    ∧ best_shape demo_shape_stops "A..N55R" ["A..N04R"] = "A..N04R" :=
  ⟨by decide, by decide,
    best_shape_picks_longest demo_shape_stops "A..N55R" ["A..N04R"] "A..N04R"
      (by decide) (by decide)⟩

/-! ### Proofs for grouping (claim C7) -/

theorem add_arrival_route_ids (a : NearbyTransitArrival) :
    ∀ m : List RouteBucket,
      (add_arrival m a).map (fun b => b.route_id)
        = if a.route_id ∈ m.map (fun b => b.route_id)
          then m.map (fun b => b.route_id)
          else m.map (fun b => b.route_id) ++ [a.route_id] := by
  intro m
  induction m with
  | nil => simp [add_arrival]
  | cons b rest ih =>
    by_cases hb : b.route_id = a.route_id
    · simp [add_arrival, hb]
    · simp only [add_arrival, if_neg hb, List.map_cons, ih, List.mem_cons]
      by_cases hmem : a.route_id ∈ rest.map fun b => b.route_id
      · simp [hmem, Ne.symm hb]
      · simp [hmem, Ne.symm hb]

theorem foldl_add_arrival_nodup (flat : List NearbyTransitArrival) :
    ∀ m : List RouteBucket, (m.map fun b => b.route_id).Nodup →
      ((flat.foldl add_arrival m).map fun b => b.route_id).Nodup := by
  induction flat with
  | nil => intro m h; exact h
  | cons a rest ih =>
    intro m h
    rw [List.foldl_cons]
    refine ih (add_arrival m a) ?_
    rw [add_arrival_route_ids a m]
    by_cases hmem : a.route_id ∈ m.map fun b => b.route_id
    · rwa [if_pos hmem]
    · rw [if_neg hmem]
      refine List.nodup_append.mpr ⟨h, List.nodup_singleton _, ?_⟩
      intro x hx hx'
      rw [List.mem_singleton] at hx'
      exact hmem (hx' ▸ hx)

/-- C7: the grouped result has its groups sorted by soonest minutes-away
(an empty group keyed by the 999 sentinel), one group per route id,
directions within a group sorted lexicographically, and arrivals within a
direction sorted ascending; the concrete example with arrivals A/N/3,
A/S/5 and L/N/2 produces groups ordered [L, A] with A's directions
ordered [N, S]. -/
theorem group_arrivals_spec (flat : List NearbyTransitArrival) :
    List.Sorted (fun g g' : GroupedNearbyTransit => soonest_minutes g ≤ soonest_minutes g')
      (group_arrivals flat)
    ∧ ((group_arrivals flat).map fun g => g.route_id).Nodup
    ∧ (∀ g ∈ group_arrivals flat,
        List.Sorted (fun d d' : DirectionArrivals => py_str_le d.direction d'.direction)
          g.directions
        ∧ ∀ d ∈ g.directions,
          List.Sorted (fun a b : NearbyTransitArrival => a.minutes_away ≤ b.minutes_away)
            d.arrivals)
    ∧ ((group_arrivals [arrival_a_n, arrival_a_s, arrival_l_n]).map fun g => g.route_id)
        = ["L", "A"]
    ∧ ((group_arrivals [arrival_a_n, arrival_a_s, arrival_l_n]).map fun g =>
        g.directions.map fun d => d.direction) = [["N"], ["N", "S"]] := by
  refine ⟨List.sorted_insertionSort _ _, ?_, ?_, by decide, by decide⟩
  · have hperm : ((group_arrivals flat).map fun g => g.route_id).Perm
        ((((flat.foldl add_arrival []).map route_bucket_to_group)).map fun g => g.route_id) :=
      (List.perm_insertionSort _ _).map _
    rw [hperm.nodup_iff, List.map_map]
    exact foldl_add_arrival_nodup flat [] List.nodup_nil
  · intro g hg
    have hg' : g ∈ (flat.foldl add_arrival []).map route_bucket_to_group :=
      (List.mem_insertionSort _).mp hg
    obtain ⟨b, _, rfl⟩ := List.mem_map.mp hg'
    refine ⟨List.sorted_insertionSort _ _, ?_⟩
    intro d hd
    have hd' := (List.mem_insertionSort _).mp hd
    obtain ⟨p, _, rfl⟩ := List.mem_map.mp hd'
    exact List.sorted_insertionSort _ _

theorem group_arrivals_spec_witness :
    group_l ∈ group_arrivals [arrival_l_n]
    ∧ dir_l ∈ group_l.directions
    ∧ List.Sorted (fun a b : NearbyTransitArrival => a.minutes_away ≤ b.minutes_away)
        dir_l.arrivals :=
  ⟨by decide, by decide,
    ((group_arrivals_spec [arrival_l_n]).2.2.1 group_l (by decide)).2 dir_l (by decide)⟩

/-! ### Proofs for the polyline round-trip (claim C4) -/

theorem char_toNat_ofNat_small : ∀ n < 127, (Char.ofNat n).toNat = n := by decide

theorem encode_value_chunks_lt (v : Nat) : ∀ c ∈ encode_value_chunks v, c < 127 := by
  induction v using Nat.strong_induction_on with
  | _ v ih =>
    rw [encode_value_chunks]
    by_cases h : v < 32
    · rw [if_pos h]
      intro c hc
      rw [List.mem_singleton] at hc
      omega
    · rw [if_neg h]
      intro c hc
      rcases List.mem_cons.mp hc with rfl | hc
      · omega
      · exact ih (v / 32) (Nat.div_lt_self (by omega) (by omega)) c hc

theorem encode_value_chunks_ne_nil (v : Nat) : encode_value_chunks v ≠ [] := by
  rw [encode_value_chunks]
  by_cases h : v < 32
  · rw [if_pos h]; simp
  · rw [if_neg h]; simp

theorem encode_value_ne_nil (d : Int) : encode_value d ≠ [] := by
  rw [encode_value]
  intro hmap
  exact encode_value_chunks_ne_nil (zigzag d) (List.map_eq_nil_iff.mp hmap)

theorem decode_chunks_encode (v : Nat) :
    ∀ rest : List Char,
      decode_chunks ((encode_value_chunks v).map Char.ofNat ++ rest) = some (v, rest) := by
  induction v using Nat.strong_induction_on with
  | _ v ih =>
    intro rest
    rw [encode_value_chunks]
    by_cases h : v < 32
    · rw [if_pos h]
      simp only [List.map_cons, List.map_nil, List.cons_append, List.nil_append, decode_chunks]
      rw [char_toNat_ofNat_small (v + 63) (by omega)]
      rw [if_pos (by omega : v + 63 - 63 < 32)]
      have hv : v + 63 - 63 = v := by omega
      rw [hv]
      rfl
    · rw [if_neg h]
      simp only [List.map_cons, List.cons_append, decode_chunks, List.append_eq]
      rw [char_toNat_ofNat_small (v % 32 + 32 + 63) (by omega)]
      rw [if_neg (by omega : ¬ (v % 32 + 32 + 63 - 63 < 32))]
      rw [ih (v / 32) (Nat.div_lt_self (by omega) (by omega)) rest]
      show some (v % 32 + 32 + 63 - 63 - 32 + 32 * (v / 32), rest) = some (v, rest)
      have hv : v % 32 + 32 + 63 - 63 - 32 + 32 * (v / 32) = v := by omega
      rw [hv]

theorem unzigzag_zigzag (d : Int) : unzigzag (zigzag d) = d := by
  rw [zigzag, unzigzag]
  by_cases h : d < 0
  · rw [if_pos h]
    have h1 : ((-(2 * d) - 1).toNat : Int) = -(2 * d) - 1 := Int.toNat_of_nonneg (by omega)
    by_cases h2 : (-(2 * d) - 1).toNat % 2 = 1
    · rw [if_pos h2]; omega
    · rw [if_neg h2]; omega
  · rw [if_neg h]
    have h1 : ((2 * d).toNat : Int) = 2 * d := Int.toNat_of_nonneg (by omega)
    by_cases h2 : (2 * d).toNat % 2 = 1
    · rw [if_pos h2]; omega
    · rw [if_neg h2]; omega

theorem decode_value_encode (d : Int) (rest : List Char) :
    decode_value (encode_value d ++ rest) = some (d, rest) := by
  rw [encode_value, decode_value, decode_chunks_encode (zigzag d) rest]
  show some (unzigzag (zigzag d), rest) = some (d, rest)
  rw [unzigzag_zigzag]

theorem decode_polyline_go_succ (f : Nat) (c : Char) (l : List Char) (plat plon : Int) :
    decode_polyline_go (f + 1) (c :: l) plat plon
      = match decode_value (c :: l) with
        | none => none
        | some (dlat, r1) =>
          match decode_value r1 with
          | none => none
          | some (dlon, r2) =>
            match decode_polyline_go f r2 (plat + dlat) (plon + dlon) with
            | some tail => some ((plat + dlat, plon + dlon) :: tail)
            | none => none := rfl

theorem decode_polyline_go_encode (coords : List (ℚ × ℚ)) :
    ∀ (plat plon : Int) (fuel : Nat),
      (encode_polyline_go coords plat plon).length ≤ fuel →
      decode_polyline_go fuel (encode_polyline_go coords plat plon) plat plon
        = some (coords.map quantize) := by
  induction coords with
  | nil =>
    intro plat plon fuel _
    cases fuel with
    | zero => rfl
    | succ f => rfl
  | cons p rest ih =>
    intro plat plon fuel h
    obtain ⟨la, lo⟩ := p
    simp only [encode_polyline_go] at h ⊢
    obtain ⟨c, cs, hcons⟩ : ∃ c cs,
        encode_value (python_round (la * 100000) - plat) = c :: cs := by
      cases hev : encode_value (python_round (la * 100000) - plat) with
      | nil => exact absurd hev (encode_value_ne_nil _)
      | cons c cs => exact ⟨c, cs, rfl⟩
    rw [List.append_assoc, hcons, List.cons_append] at h ⊢
    have hlen2 : 0 < (encode_value (python_round (lo * 100000) - plon)).length :=
      List.length_pos.mpr (encode_value_ne_nil _)
    cases fuel with
    | zero =>
      rw [List.length_cons] at h
      omega
    | succ f =>
      have hdv1 : decode_value (c :: (cs ++
          (encode_value (python_round (lo * 100000) - plon) ++
            encode_polyline_go rest (python_round (la * 100000))
              (python_round (lo * 100000))))) =
          some (python_round (la * 100000) - plat,
            encode_value (python_round (lo * 100000) - plon) ++
              encode_polyline_go rest (python_round (la * 100000))
                (python_round (lo * 100000))) := by
        rw [← List.cons_append, ← hcons]
        exact decode_value_encode _ _
      have hdv2 : decode_value (encode_value (python_round (lo * 100000) - plon) ++
          encode_polyline_go rest (python_round (la * 100000))
            (python_round (lo * 100000))) =
          some (python_round (lo * 100000) - plon,
            encode_polyline_go rest (python_round (la * 100000))
              (python_round (lo * 100000))) :=
        decode_value_encode _ _
      simp only [decode_polyline_go_succ, hdv1, hdv2]
      have e1 : plat + (python_round (la * 100000) - plat) = python_round (la * 100000) := by
        ring
      have e2 : plon + (python_round (lo * 100000) - plon) = python_round (lo * 100000) := by
        ring
      rw [e1, e2]
      have hfuel : (encode_polyline_go rest (python_round (la * 100000))
          (python_round (lo * 100000))).length ≤ f := by
        rw [List.length_cons, List.length_append, List.length_append] at h
        omega
      rw [ih (python_round (la * 100000)) (python_round (lo * 100000)) f hfuel]
      simp [quantize]

theorem python_round_close (q : ℚ) : |(python_round q : ℚ) - q| ≤ 1 / 2 := by
  have h0 : (⌊q⌋ : ℚ) ≤ q := Int.floor_le q
  have h1 : q < ⌊q⌋ + 1 := Int.lt_floor_add_one q
  rw [python_round]
  by_cases hc1 : q - ⌊q⌋ < 1 / 2
  · rw [if_pos hc1, abs_le]
    constructor <;> linarith
  · rw [if_neg hc1]
    by_cases hc2 : 1 / 2 < q - ⌊q⌋
    · rw [if_pos hc2, abs_le]
      constructor <;> (push_cast; linarith)
    · rw [if_neg hc2]
      by_cases hc3 : ⌊q⌋ % 2 = 0
      · rw [if_pos hc3, abs_le]
        constructor <;> linarith
      · rw [if_neg hc3, abs_le]
        constructor <;> (push_cast; linarith)

theorem quantize_close (x : ℚ) :
    |((python_round (x * 100000) : ℚ)) / 100000 - x| ≤ 1 / 100000 := by
  have h := python_round_close (x * 100000)
  have heq : ((python_round (x * 100000) : ℚ)) / 100000 - x
      = ((python_round (x * 100000) : ℚ) - x * 100000) / 100000 := by
    ring
  rw [heq, abs_div, abs_of_pos (by norm_num : (0 : ℚ) < 100000)]
  rw [div_le_iff₀ (by norm_num : (0 : ℚ) < 100000)]
  calc |(python_round (x * 100000) : ℚ) - x * 100000| ≤ 1 / 2 := h
    _ ≤ 1 / 100000 * 100000 := by norm_num

/-- C4: encoding a coordinate list with the source encoder (scale by 1e5,
round, delta-encode per axis, zig-zag, 5-bit chunks with continuation bit
while the value is at least 0x20, all chunks offset by 63) and decoding
the resulting string with the publicly documented polyline algorithm
yields exactly the quantized coordinate list, and each decoded coordinate
is within the 1e-5 degree quantization of the original. -/
theorem polyline_roundtrip (coords : List (ℚ × ℚ)) :
    decode_polyline (encode_polyline coords) = some (coords.map quantize)
    ∧ List.Forall₂ (fun (orig : ℚ × ℚ) (dec : Int × Int) =>
        |((dec.1 : ℚ)) / 100000 - orig.1| ≤ 1 / 100000 ∧
        |((dec.2 : ℚ)) / 100000 - orig.2| ≤ 1 / 100000) coords (coords.map quantize) := by
  constructor
  · rw [encode_polyline, decode_polyline]
    exact decode_polyline_go_encode coords 0 0 _ le_rfl
  · rw [List.forall₂_map_right_iff]
    rw [List.forall₂_same]
    intro p _
    exact ⟨quantize_close p.1, quantize_close p.2⟩

end Track
